import Mathlib

/-!
Shallow embedding of `src/mcpe_downloader.py` (the MCPE APK direct download
link extractor of this repository).

Pure computations of the source — the regular-expression scan for artifact
URLs, the anchor scan, URL joining, lower-casing, the countdown keyword test —
are translated directly into executable Lean functions.  Effectful parts
(HTTP fetches, `time.sleep`, Selenium navigation, printing, `sys.exit`) are
modelled by explicit oracles for the environment together with traces: each
modelled run records the network events it performed (fetches, sleeps,
navigations) and the lines it printed, tagged with the channel they went to.

One genuinely nondeterministic step is `list(set(links))` at the end of
`_extract_direct_links_from_html`: CPython iterates a `set` of strings in an
order determined by the per-process string hash seed (hash randomisation), so
the language guarantees only the membership of the resulting list, not its
order.  That step is therefore modelled by an arbitrary admissible reordering
(`PySetOrder` below): any function that returns the distinct elements of its
input in some order.
-/

/-- Channel of a Python `print` call: a plain `print(...)` writes to standard
output, `print(..., file=sys.stderr)` writes to standard error. -/
inductive OutChannel
  | stdout
  | stderr
deriving DecidableEq, Repr

/-- One printed line: the channel it went to and its text. -/
structure OutLine where
  chan : OutChannel
  text : String
deriving DecidableEq, Repr

/-- Observable network/timing events of a run: `fetch` is a
`session.get(url, timeout=15)` call, `sleep` is `time.sleep(seconds)`,
`navigate` is a Selenium `driver.get(url)` navigation. -/
inductive NetEvent
  | fetch (url : String)
  | sleep (seconds : Nat)
  | navigate (url : String)
deriving DecidableEq, Repr

/-- A parsed page, as the source consumes it.  BeautifulSoup parsing is
deterministic, so a document is modelled by the raw markup text
(`response.text`, scanned by `re.findall`) together with the two projections
the code reads off the parse: the `href` attributes of the
`soup.find_all('a', href=True)` elements in document order, and the
`soup.get_text()` rendering. -/
structure Html where
  raw : String
  anchor_hrefs : List String
  text : String
deriving DecidableEq, Repr

/-- An HTTP response: its status code and its parsed body. -/
structure HttpResponse where
  statusCode : Nat
  body : Html
deriving DecidableEq, Repr

/-- Outcome of one `session.get` call: a response, or a raised
`requests.exceptions.RequestException` (timeout, DNS failure, ...). -/
inductive FetchResult
  | success (resp : HttpResponse)
  | netError (msg : String)
deriving DecidableEq, Repr

/-- Model of CPython `list(set(links))` on lists of strings: the result holds
exactly the distinct elements of the input, in an order that depends on the
per-process string hash seed and is therefore unspecified.  An admissible
reordering is any function with exactly that contract. -/
structure PySetOrder where
  reorder : List String → List String
  nodup : ∀ l, (reorder l).Nodup
  mem_iff : ∀ l x, x ∈ reorder l ↔ x ∈ l

/- ---------------------------------------------------------------------- -/
/- String helpers modelling the Python primitives the source uses.        -/
/- ---------------------------------------------------------------------- -/

/-- Model of Python `s.startswith(t)`. -/
def py_startswith (s t : String) : Bool :=
  t.toList.isPrefixOf s.toList

/-- Model of Python `s.endswith(t)`. -/
def py_endswith (s t : String) : Bool :=
  t.toList.isSuffixOf s.toList

/-- Helper for substring containment: does the needle occur in the haystack? -/
def sub_in_aux (needle : List Char) : List Char → Bool
  | [] => needle.isEmpty
  | c :: cs => needle.isPrefixOf (c :: cs) || sub_in_aux needle cs

/-- Model of Python `needle in hay` on strings. -/
def py_in (needle hay : String) : Bool :=
  sub_in_aux needle.toList hay.toList

/-- Model of Python `s.lower()`.  `Char.toLower` lower-cases the ASCII
letters, which covers every keyword comparison the source performs (its
keyword list is ASCII). -/
def py_lower (s : String) : String :=
  String.mk (s.toList.map Char.toLower)

/-- Model of the Python regex character class `\s` on a `str` pattern: ASCII
whitespace plus the Unicode whitespace code points. -/
def py_whitespace (c : Char) : Bool :=
  let n := c.toNat
  n == 0x20 || n == 0x09 || n == 0x0A || n == 0x0D || n == 0x0B || n == 0x0C ||
  (decide (0x1C ≤ n) && decide (n ≤ 0x1F)) || n == 0x85 || n == 0xA0 ||
  n == 0x1680 || (decide (0x2000 ≤ n) && decide (n ≤ 0x200A)) ||
  n == 0x2028 || n == 0x2029 || n == 0x202F || n == 0x205F || n == 0x3000

/- ---------------------------------------------------------------------- -/
/- The regex scan of `_extract_direct_links_from_html` (line 129-130):    -/
/- re.findall(r'https://mcpedl\.org/uploads_files/[^"\x27\s<>]*\.apk', h) -/
/- ---------------------------------------------------------------------- -/

/-- The literal part of the artifact-URL pattern, before the character
class. -/
def uploads_lit : List Char :=
  "https://mcpedl.org/uploads_files/".toList

/-- The literal tail of the artifact-URL pattern. -/
def apk_lit : List Char :=
  ".apk".toList

/-- The character class of the pattern: any character other than a double
quote, a single quote, whitespace, or an angle bracket. -/
def allowed_char (c : Char) : Bool :=
  !(c == '"' || c == '\'' || c == '<' || c == '>' || py_whitespace c)

/-- Greedy matching of the pattern tail at a fixed start: the class is
greedy, so the regex engine takes the longest stretch of allowed characters
that still ends in the literal ".apk".  Returns that stretch, if any. -/
def longest_apk_take (run : List Char) : Option (List Char) :=
  (List.range (run.length + 1)).reverse.findSome? (fun k =>
    let p := run.take k
    if apk_lit.isSuffixOf p then some p else none)

/-- The `re.findall` scan: try the pattern at each position left to right;
after a match, continue at the end of the match; after a failed attempt,
advance one character.  The fuel argument is the length of the remaining
text, which bounds the recursion (every step consumes at least one
character). -/
def find_apk_matches_aux : Nat → List Char → List String
  | 0, _ => []
  | _ + 1, [] => []
  | fuel + 1, c :: cs =>
    if uploads_lit.isPrefixOf (c :: cs) then
      let rest := (c :: cs).drop uploads_lit.length
      let run := rest.takeWhile allowed_char
      match longest_apk_take run with
      | some p =>
          String.mk (uploads_lit ++ p) :: find_apk_matches_aux fuel (rest.drop p.length)
      | none => find_apk_matches_aux fuel cs
    else find_apk_matches_aux fuel cs

/-- All matches of the artifact-URL pattern in the raw markup, in order of
occurrence — the `matches` list of line 130. -/
def re_findall_apk (html_content : String) : List String :=
  find_apk_matches_aux html_content.toList.length html_content.toList

/- ---------------------------------------------------------------------- -/
/- Model of urllib.parse.urljoin, as used on line 138.                    -/
/- ---------------------------------------------------------------------- -/

/-- Does the reference carry its own scheme (a colon before any slash)?  A
reference with a scheme is returned unchanged by `urljoin` for the URL shapes
this program handles. -/
def has_scheme (url : String) : Bool :=
  (url.toList.takeWhile (fun c => c != '/')).contains ':'

/-- Split a URL at the first "://" into scheme and remainder. -/
def split_scheme_aux (acc : List Char) : List Char → Option (List Char × List Char)
  | [] => none
  | c :: cs =>
    if c == ':' && cs.take 2 == ['/', '/'] then some (acc.reverse, cs.drop 2)
    else split_scheme_aux (c :: acc) cs

/-- Split a URL of the form scheme://rest. -/
def split_scheme (s : String) : Option (String × String) :=
  match split_scheme_aux [] s.toList with
  | some (sc, rest) => some (String.mk sc, String.mk rest)
  | none => none

/-- Directory of a path: everything up to and including the last slash, or
the root when the path has no slash. -/
def dir_of_path (path : String) : String :=
  let l := path.toList
  if l.contains '/' then String.mk ((l.reverse.dropWhile (fun c => c != '/')).reverse)
  else "/"

/-- Leading double slash literal. -/
def double_slash : String := "//"

/-- Leading single slash literal. -/
def single_slash : String := "/"

/-- Model of `urllib.parse.urljoin(base, url)` restricted to the http(s)
URL shapes this program encounters: an empty reference yields the base, a
reference with its own scheme is returned unchanged, a network-path
reference ("//...") adopts the base scheme, a rooted reference ("/...")
adopts the base scheme and authority, and any other reference is appended to
the directory of the base path.  Dot-segment normalisation and
query/fragment splitting are not needed by the markup this code handles and
are not modelled. -/
def urljoin (base url : String) : String :=
  if url == "" then base
  else if has_scheme url then url
  else
    match split_scheme base with
    | none => url
    | some (scheme, rest) =>
      let netloc := String.mk (rest.toList.takeWhile (fun c => c != '/'))
      let path := String.mk (rest.toList.dropWhile (fun c => c != '/'))
      if py_startswith url double_slash then scheme ++ ":" ++ url
      else if py_startswith url single_slash then scheme ++ "://" ++ netloc ++ url
      else scheme ++ "://" ++ netloc ++ dir_of_path path ++ url

/- ---------------------------------------------------------------------- -/
/- The Candidate Scan: _extract_direct_links_from_html (lines 123-142).   -/
/- ---------------------------------------------------------------------- -/

/-- The artifact file extension checked by `href.endswith('.apk')`. -/
def apk_ext : String := ".apk"

/-- One iteration of the anchor loop (lines 135-140): an href ending in the
artifact extension is resolved against the base URL and appended unless
already present. -/
def anchor_step (base_url : String) (links : List String) (href : String) : List String :=
  if py_endswith href apk_ext then
    let full_url := urljoin base_url href
    if links.contains full_url then links else links ++ [full_url]
  else links

/-- The `links` list of `_extract_direct_links_from_html` just before the
final `list(set(links))`: all pattern matches in order of occurrence,
followed by the anchor-derived links in document order. -/
def collect_links (page : Html) (base_url : String) : List String :=
  page.anchor_hrefs.foldl (anchor_step base_url) (re_findall_apk page.raw)

/-- The full Candidate Scan `_extract_direct_links_from_html(html, base)`:
the collected links passed through `list(set(links))`, the latter modelled by
an admissible reordering `σ` (see `PySetOrder`). -/
def extract_direct_links_from_html (σ : PySetOrder) (page : Html) (base_url : String) :
    List String :=
  σ.reorder (collect_links page base_url)

/-- An admissible set order that keeps deduplicated elements in a canonical
order — one possible value of the per-process hash seed. -/
def id_order : PySetOrder where
  reorder := fun l => l.dedup
  nodup := fun l => l.nodup_dedup
  mem_iff := fun _ _ => List.mem_dedup

/-- An admissible set order that reverses the canonical order — another
possible outcome of the hash-seed-dependent set iteration. -/
def rev_order : PySetOrder where
  reorder := fun l => l.dedup.reverse
  nodup := fun l => List.nodup_reverse.mpr l.nodup_dedup
  mem_iff := fun l x => by rw [List.mem_reverse]; exact List.mem_dedup

/-- Every admissible reordering sends the empty list to the empty list, so
emptiness of the Candidate Scan does not depend on the hash seed. -/
theorem reorder_nil (σ : PySetOrder) : σ.reorder [] = [] := by
  rw [List.eq_nil_iff_forall_not_mem]
  intro x hx
  exact (List.not_mem_nil x) ((σ.mem_iff [] x).mp hx)

/- ---------------------------------------------------------------------- -/
/- Countdown keyword detection (line 100).                                -/
/- ---------------------------------------------------------------------- -/

/-- The fixed keyword list of line 100. -/
def countdown_words : List String := ["timer", "countdown", "please wait", "seconds"]

/-- Line 99-100: lower-case the visible page text and test whether any
keyword occurs in it. -/
def has_countdown_keyword (page_text : String) : Bool :=
  countdown_words.any (fun w => py_in w (py_lower page_text))

/- ---------------------------------------------------------------------- -/
/- The plain-fetch path: _get_download_link_requests (lines 82-121).      -/
/- ---------------------------------------------------------------------- -/

/-- Result of one modelled extractor run: the returned value, the network
and timing events performed, and the lines printed, in order. -/
structure ExtractRun where
  result : Option String
  events : List NetEvent
  output : List OutLine
deriving DecidableEq, Repr

/-- The progress line of line 85. -/
def method_line : OutLine :=
  ⟨.stdout, "⚙️ Using requests/BeautifulSoup method (Termux friendly)"⟩

/-- Abbreviated model of the message of the `requests.HTTPError` raised by
`response.raise_for_status()`; only the fact that the line goes to standard
output matters to the claims, not its text. -/
def http_error_text (code : Nat) (url : String) : String :=
  toString code ++ " Error for url: " ++ url

/-- The two progress lines printed on the countdown branch (lines 102 and
106); the `time.sleep(12)` happens between them. -/
def timer_lines : List OutLine :=
  [⟨.stdout, "⏱️ Timer detected. Waiting for 12 seconds to simulate countdown..."⟩,
   ⟨.stdout, "🔄 Re-fetching page after wait..."⟩]

/-- Lines 105-111: handling of the second `session.get` after the 12-unit
sleep.  Note the source performs no `raise_for_status` on this second
response: its body is scanned whatever its status code.  A raised network
error propagates to the `except RequestException` handler of line 116. -/
def second_fetch (σ : PySetOrder) (url : String) (pre : List OutLine) :
    FetchResult → ExtractRun
  | .netError msg =>
      ⟨none, [.fetch url, .sleep 12, .fetch url],
        pre ++ [⟨.stdout, "❌ Network error: " ++ msg⟩]⟩
  | .success resp2 =>
      match extract_direct_links_from_html σ resp2.body url with
      | link2 :: _ =>
          ⟨some link2, [.fetch url, .sleep 12, .fetch url],
            pre ++ [⟨.stdout, "✅ Found direct link after waiting."⟩]⟩
      | [] =>
          ⟨none, [.fetch url, .sleep 12, .fetch url],
            pre ++ [⟨.stdout, "❌ Could not find a direct link."⟩]⟩

/-- Lines 87-114: the body of `_get_download_link_requests` applied to the
outcome of the first `session.get`.  `raise_for_status` raises for status
codes in [400, 600), and the raised `HTTPError` is a `RequestException`, so
it is caught by the handler of line 116 as a network error. -/
def first_fetch (σ : PySetOrder) (net : Nat → FetchResult) (url : String) :
    FetchResult → ExtractRun
  | .netError msg =>
      ⟨none, [.fetch url], [method_line, ⟨.stdout, "❌ Network error: " ++ msg⟩]⟩
  | .success resp =>
      if 400 ≤ resp.statusCode ∧ resp.statusCode < 600 then
        ⟨none, [.fetch url],
          [method_line, ⟨.stdout, "❌ Network error: " ++ http_error_text resp.statusCode url⟩]⟩
      else
        match extract_direct_links_from_html σ resp.body url with
        | link :: _ =>
            ⟨some link, [.fetch url],
              [method_line, ⟨.stdout, "✅ Found direct link immediately."⟩]⟩
        | [] =>
            if has_countdown_keyword resp.body.text then
              second_fetch σ url (method_line :: timer_lines) (net 1)
            else
              ⟨none, [.fetch url],
                [method_line, ⟨.stdout, "❌ Could not find a direct link."⟩]⟩

/-- The plain-fetch extraction `_get_download_link_requests(url)`.  The
oracle `net` gives the outcome of the n-th `session.get` call of this run. -/
def get_download_link_requests (σ : PySetOrder) (net : Nat → FetchResult) (url : String) :
    ExtractRun :=
  first_fetch σ net url (net 0)

/- ---------------------------------------------------------------------- -/
/- The browser path: setup_driver (28-58) and                             -/
/- _get_download_link_selenium (147-174).                                 -/
/- ---------------------------------------------------------------------- -/

/-- Outcome of `setup_driver`: the Selenium import fails (line 35), the
WebDriver constructor raises (line 55), or a driver is acquired. -/
inductive DriverSetup
  | importError
  | initError (msg : String)
  | ok
deriving DecidableEq, Repr

/-- Environment of the browser path: the outcome of driver setup and the
`driver.page_source` markup rendered after navigation plus the fixed wait. -/
structure SeleniumEnv where
  setup : DriverSetup
  pageSource : Html
deriving Repr

/-- The lines printed by `setup_driver` in each outcome. -/
def setup_lines : DriverSetup → List OutLine
  | .importError =>
      [⟨.stdout, "❌ Selenium library not found. Please install it with \x27pip install selenium\x27."⟩,
       ⟨.stdout, "   Note: Selenium is not recommended for Termux as it requires a graphical browser."⟩]
  | .initError msg =>
      [⟨.stdout, "❌ Failed to initialize WebDriver: " ++ msg⟩,
       ⟨.stdout, "   Note: You need to install a compatible ChromeDriver for Selenium to work."⟩]
  | .ok => [⟨.stdout, "✅ Selenium WebDriver initialized"⟩]

/-- The fallback diagnostic of line 152. -/
def fallback_line : OutLine :=
  ⟨.stdout, "⚠️ Selenium not available. Falling back to requests method..."⟩

/-- `_get_download_link_selenium(url)` (lines 147-174).  When setup leaves
no driver (import failure or WebDriver failure set `use_selenium = False` and
leave `driver = None`), the method falls back to the plain-fetch path on the
same URL.  Otherwise it navigates, sleeps a fixed 15 units with no polling,
and runs the Candidate Scan once on the rendered markup. -/
def get_download_link_selenium (σ : PySetOrder) (net : Nat → FetchResult)
    (env : SeleniumEnv) (url : String) : ExtractRun :=
  match env.setup with
  | .ok =>
      let loading : List OutLine :=
        [⟨.stdout, "🌐 Loading page with Selenium..."⟩,
         ⟨.stdout, "⏳ Waiting up to 15 seconds for download link..."⟩]
      match extract_direct_links_from_html σ env.pageSource url with
      | link :: _ =>
          ⟨some link, [.navigate url, .sleep 15],
            setup_lines .ok ++ loading ++ [⟨.stdout, "✅ Found link with Selenium."⟩]⟩
      | [] =>
          ⟨none, [.navigate url, .sleep 15],
            setup_lines .ok ++ loading ++
              [⟨.stdout, "❌ Could not extract download link using Selenium"⟩]⟩
  | s =>
      let req := get_download_link_requests σ net url
      ⟨req.result, req.events, setup_lines s ++ fallback_line :: req.output⟩

/- ---------------------------------------------------------------------- -/
/- get_download_link (66-80) and main (176-212).                          -/
/- ---------------------------------------------------------------------- -/

/-- `get_download_link(url)` (lines 66-80): prints the analysis banner, then
dispatches on `use_selenium`. -/
def get_download_link (σ : PySetOrder) (net : Nat → FetchResult) (env : SeleniumEnv)
    (use_selenium : Bool) (url : String) : ExtractRun :=
  let inner :=
    if use_selenium then get_download_link_selenium σ net env url
    else get_download_link_requests σ net url
  ⟨inner.result, inner.events, ⟨.stdout, "🔍 Analyzing: " ++ url⟩ :: inner.output⟩

/-- How the `try` body of `main` (lines 195-203) ends: it runs to
completion, or a `KeyboardInterrupt` or an unexpected exception aborts it at
an arbitrary point, with the output and events produced up to that point. -/
inductive BodyOutcome
  | completed
  | keyboardInterrupt (outSoFar : List OutLine) (eventsSoFar : List NetEvent)
  | raised (msg : String) (outSoFar : List OutLine) (eventsSoFar : List NetEvent)

/-- Result of a modelled `main` run: process exit code, printed lines,
network events, and whether `close_driver` was invoked (the `finally` block
of line 211-212). -/
structure MainRun where
  exitCode : Nat
  output : List OutLine
  events : List NetEvent
  cleanupRan : Bool
deriving DecidableEq, Repr

/-- The usage message of lines 179-180. -/
def usage_lines : List OutLine :=
  [⟨.stdout, "Usage: python mcpe_downloader.py <URL>"⟩,
   ⟨.stdout, "Example: python mcpe_downloader.py https://mcpedl.org/getfile/5916"⟩]

/-- The scheme error message of line 186. -/
def scheme_error_line : OutLine :=
  ⟨.stdout, "Error: URL must start with http:// or https://"⟩

/-- The scheme check literal of line 185. -/
def http_str : String := "http"

/-- Line 191: the Selenium flag is set when a third argument equals one of
the two literal tokens. -/
def selenium_flag (argv : List String) : Bool :=
  decide (argv.length > 2) && (argv.getD 2 "" == "-s" || argv.getD 2 "" == "--selenium")

/-- The `try`/`except`/`finally` block of lines 195-212, after `extractor`
has been constructed.  On completion the truthiness test `if download_link:`
treats both `None` and an empty string as absent.  Every branch — normal
completion, `KeyboardInterrupt`, unexpected exception — runs the `finally`
cleanup. -/
def main_body (σ : PySetOrder) (net : Nat → FetchResult) (env : SeleniumEnv)
    (argv : List String) (url : String) : BodyOutcome → MainRun
  | .completed =>
      let run := get_download_link σ net env (selenium_flag argv) url
      match run.result with
      | some link =>
          if link == "" then
            ⟨1, run.output ++ [⟨.stderr, "❌ No download link found."⟩], run.events, true⟩
          else
            ⟨0, run.output ++ [⟨.stdout, link⟩], run.events, true⟩
      | none =>
          ⟨1, run.output ++ [⟨.stderr, "❌ No download link found."⟩], run.events, true⟩
  | .keyboardInterrupt po pe =>
      ⟨1, po ++ [⟨.stderr, "\n⏹️ Process interrupted by user."⟩], pe, true⟩
  | .raised msg po pe =>
      ⟨1, po ++ [⟨.stderr, "❌ An unexpected error occurred: " ++ msg⟩], pe, true⟩

/-- `main()` (lines 176-212): argument validation (both failure exits happen
before the extractor is constructed, so no network runs and no cleanup is
needed), then the guarded extraction. -/
def main_run (σ : PySetOrder) (net : Nat → FetchResult) (env : SeleniumEnv)
    (outcome : BodyOutcome) (argv : List String) : MainRun :=
  if argv.length < 2 then ⟨1, usage_lines, [], false⟩
  else if py_startswith (argv.getD 1 "") http_str then
    main_body σ net env argv (argv.getD 1 "") outcome
  else ⟨1, [scheme_error_line], [], false⟩

/-- The texts written to standard output by a run, in order. -/
def stdout_texts (out : List OutLine) : List String :=
  (out.filter (fun l => l.chan == .stdout)).map (fun l => l.text)

/- ---------------------------------------------------------------------- -/
/- Helper lemmas about the plain-fetch path.                              -/
/- ---------------------------------------------------------------------- -/

/-- When the collected links are empty, the Candidate Scan is empty for
every admissible set order. -/
theorem first_scan_empty (σ : PySetOrder) (page : Html) (base_url : String)
    (h : collect_links page base_url = []) :
    extract_direct_links_from_html σ page base_url = [] := by
  rw [extract_direct_links_from_html, h, reorder_nil]

/-- Characterisation of the countdown branch of
`_get_download_link_requests`: when the first response is fetched with a
non-error status, its scan is empty, a countdown keyword is present and the
second fetch yields a response, the run performs exactly the three events
fetch-sleep(12)-fetch and returns the head of the Candidate Scan of the
second body. -/
theorem requests_countdown_run (σ : PySetOrder) (net : Nat → FetchResult) (url : String)
    (resp resp2 : HttpResponse)
    (h0 : net 0 = .success resp) (hst : resp.statusCode < 400)
    (hempty : collect_links resp.body url = [])
    (hkw : has_countdown_keyword resp.body.text = true)
    (h1 : net 1 = .success resp2) :
    (get_download_link_requests σ net url).result =
      (extract_direct_links_from_html σ resp2.body url).head? ∧
    (get_download_link_requests σ net url).events =
      [.fetch url, .sleep 12, .fetch url] := by
  rw [get_download_link_requests, h0]
  simp only [first_fetch]
  rw [if_neg (by omega : ¬(400 ≤ resp.statusCode ∧ resp.statusCode < 600))]
  rw [first_scan_empty σ resp.body url hempty, hkw]
  simp only [if_pos rfl, h1, second_fetch]
  cases hc : extract_direct_links_from_html σ resp2.body url with
  | nil => simp [hc]
  | cons a l => simp [hc]

/-- Characterisation of the no-keyword branch: a fetched page with empty
scan and no countdown keyword ends the run after the single fetch. -/
theorem requests_no_keyword_run (σ : PySetOrder) (net : Nat → FetchResult) (url : String)
    (resp : HttpResponse)
    (h0 : net 0 = .success resp) (hst : resp.statusCode < 400)
    (hempty : collect_links resp.body url = [])
    (hkw : has_countdown_keyword resp.body.text = false) :
    (get_download_link_requests σ net url).result = none ∧
    (get_download_link_requests σ net url).events = [.fetch url] := by
  rw [get_download_link_requests, h0]
  simp only [first_fetch]
  rw [if_neg (by omega : ¬(400 ≤ resp.statusCode ∧ resp.statusCode < 600))]
  rw [first_scan_empty σ resp.body url hempty, hkw]
  simp

/-- Characterisation of the first-fetch HTTP error branch: a first response
with an error status makes `raise_for_status` raise; the exception is caught
as a network error and the run ends after the single fetch with no result. -/
theorem requests_http_error_run (σ : PySetOrder) (net : Nat → FetchResult) (url : String)
    (resp : HttpResponse)
    (h0 : net 0 = .success resp) (hlo : 400 ≤ resp.statusCode) (hhi : resp.statusCode < 600) :
    (get_download_link_requests σ net url).result = none ∧
    (get_download_link_requests σ net url).events = [.fetch url] := by
  rw [get_download_link_requests, h0]
  simp only [first_fetch]
  rw [if_pos ⟨hlo, hhi⟩]
  exact ⟨rfl, rfl⟩

/- ---------------------------------------------------------------------- -/
/- Claim C4.                                                              -/
/- ---------------------------------------------------------------------- -/

/-- C4: the Candidate Scan is deterministic in its two inputs.  It is a
function of the parsed markup and the base URL; the only other influence is
the hash-seed-dependent iteration order of `list(set(links))`, and as a set
the result does not depend on it: any two admissible set orders yield the
same set of candidate links. -/
theorem candidate_scan_deterministic (σ₁ σ₂ : PySetOrder) (page : Html) (base_url : String) :
    (extract_direct_links_from_html σ₁ page base_url).toFinset =
    (extract_direct_links_from_html σ₂ page base_url).toFinset := by
  ext x
  simp only [List.mem_toFinset, extract_direct_links_from_html, σ₁.mem_iff, σ₂.mem_iff]

/- ---------------------------------------------------------------------- -/
/- Claim C5.                                                              -/
/- ---------------------------------------------------------------------- -/

/-- C5: on the plain-fetch path, a first body with no candidate whose
visible text contains a countdown keyword leads to exactly one 12-unit sleep
and exactly one re-fetch of the same URL, and the run returns the first
candidate scanned from the re-fetched body, or nothing when that scan is
empty. -/
theorem countdown_single_retry (σ : PySetOrder) (net : Nat → FetchResult) (url : String)
    (resp resp2 : HttpResponse)
    (h0 : net 0 = .success resp) (hst : resp.statusCode < 400)
    (hempty : collect_links resp.body url = [])
    (hkw : has_countdown_keyword resp.body.text = true)
    (h1 : net 1 = .success resp2) :
    (get_download_link_requests σ net url).events =
      [.fetch url, .sleep 12, .fetch url] ∧
    (get_download_link_requests σ net url).result =
      (extract_direct_links_from_html σ resp2.body url).head? := by
  have h := requests_countdown_run σ net url resp resp2 h0 hst hempty hkw h1
  exact ⟨h.2, h.1⟩

/-- End-to-end scenario 2 of the spec: first body is a countdown page with
no link, second body carries a root-relative anchor. -/
def c5_url : String := "https://mcpedl.org/getfile/5916"

/-- First response body of the C5 scenario. -/
def c5_body1 : Html := ⟨"Please wait 10 seconds...", [], "Please wait 10 seconds..."⟩

/-- Second response body of the C5 scenario. -/
def c5_body2 : Html := ⟨"<a href=\"/files/app.apk\">go</a>", ["/files/app.apk"], "go"⟩

/-- First response of the C5 scenario. -/
def c5_resp1 : HttpResponse := ⟨200, c5_body1⟩

/-- Second response of the C5 scenario. -/
def c5_resp2 : HttpResponse := ⟨200, c5_body2⟩

/-- Network oracle of the C5 scenario. -/
def c5_net : Nat → FetchResult := fun n =>
  match n with
  | 0 => .success c5_resp1
  | _ => .success c5_resp2

/-- The link of the C5 scenario, resolved against the base URL. -/
def c5_link : String := "https://mcpedl.org/files/app.apk"

/-- Witness for C5 at the spec scenario: the run sleeps 12 units, re-fetches
once, and returns the anchor resolved to absolute form. -/
theorem countdown_single_retry_witness :
    (get_download_link_requests id_order c5_net c5_url).events =
      [.fetch c5_url, .sleep 12, .fetch c5_url] ∧
    (get_download_link_requests id_order c5_net c5_url).result = some c5_link := by
  have h := countdown_single_retry id_order c5_net c5_url c5_resp1 c5_resp2 rfl
    (by decide) (by decide) (by decide) rfl
  refine ⟨h.1, ?_⟩
  rw [h.2]
  decide

/- ---------------------------------------------------------------------- -/
/- Claim C6.                                                              -/
/- ---------------------------------------------------------------------- -/

/-- C6: on the plain-fetch path, a body with no candidate links and none of
the countdown keywords ends the run with no link after exactly one fetch: no
sleep, no second fetch. -/
theorem no_keyword_single_fetch (σ : PySetOrder) (net : Nat → FetchResult) (url : String)
    (resp : HttpResponse)
    (h0 : net 0 = .success resp) (hst : resp.statusCode < 400)
    (hempty : collect_links resp.body url = [])
    (hkw : has_countdown_keyword resp.body.text = false) :
    (get_download_link_requests σ net url).result = none ∧
    (get_download_link_requests σ net url).events = [.fetch url] :=
  requests_no_keyword_run σ net url resp h0 hst hempty hkw

/-- A link-free, keyword-free page for the C6 witness. -/
def c6_page : Html := ⟨"<p>hello world</p>", [], "hello world"⟩

/-- Network oracle of the C6 witness. -/
def c6_net : Nat → FetchResult := fun _ => .success ⟨200, c6_page⟩

/-- URL of the C6 witness. -/
def c6_url : String := "https://mcpedl.org/getfile/5916"

/-- Witness for C6: a plain page yields no link and a single fetch. -/
theorem no_keyword_single_fetch_witness :
    (get_download_link_requests id_order c6_net c6_url).result = none ∧
    (get_download_link_requests id_order c6_net c6_url).events = [.fetch c6_url] :=
  no_keyword_single_fetch id_order c6_net c6_url ⟨200, c6_page⟩ rfl (by decide)
    (by decide) (by decide)

/- ---------------------------------------------------------------------- -/
/- Claim C10.                                                             -/
/- ---------------------------------------------------------------------- -/

/-- C10: the first fetch is guarded by `raise_for_status`, so an HTTP error
status on the first response fails the operation as a caught network error;
the re-fetch after the countdown wait performs no status check, so the
second response body is scanned for candidates whatever its status code. -/
theorem refetch_no_status_check (σ : PySetOrder) (net : Nat → FetchResult) (url : String) :
    (∀ resp : HttpResponse, net 0 = .success resp → 400 ≤ resp.statusCode →
        resp.statusCode < 600 →
        (get_download_link_requests σ net url).result = none ∧
        (get_download_link_requests σ net url).events = [.fetch url]) ∧
    (∀ resp resp2 : HttpResponse, net 0 = .success resp → resp.statusCode < 400 →
        collect_links resp.body url = [] →
        has_countdown_keyword resp.body.text = true →
        net 1 = .success resp2 →
        (get_download_link_requests σ net url).result =
          (extract_direct_links_from_html σ resp2.body url).head?) := by
  constructor
  · intro resp h0 hlo hhi
    exact requests_http_error_run σ net url resp h0 hlo hhi
  · intro resp resp2 h0 hst hempty hkw h1
    exact (requests_countdown_run σ net url resp resp2 h0 hst hempty hkw h1).1

/-- First response body of the C10 witness: a countdown page. -/
def c10_body1 : Html :=
  ⟨"<p>Please wait 10 seconds...</p>", [], "Please wait 10 seconds..."⟩

/-- Second response of the C10 witness: an HTTP 500 error page that still
carries an anchor to the artifact. -/
def c10_resp2 : HttpResponse := ⟨500, ⟨"<a href=\"/files/app.apk\">go</a>", ["/files/app.apk"], "go"⟩⟩

/-- Network oracle of the C10 witness. -/
def c10_net : Nat → FetchResult := fun n =>
  match n with
  | 0 => .success ⟨200, c10_body1⟩
  | _ => .success c10_resp2

/-- URL of the C10 witness. -/
def c10_url : String := "https://mcpedl.org/getfile/77"

/-- Witness for C10: the second response has status 500 and its body is
still scanned, producing the resolved anchor link. -/
theorem refetch_no_status_check_witness :
    c10_resp2.statusCode = 500 ∧
    (get_download_link_requests id_order c10_net c10_url).result =
      some ("https://mcpedl.org/files/app.apk") := by
  have h := (refetch_no_status_check id_order c10_net c10_url).2 ⟨200, c10_body1⟩ c10_resp2
    rfl (by decide) (by decide) (by decide) rfl
  refine ⟨rfl, ?_⟩
  rw [h]
  decide

/- ---------------------------------------------------------------------- -/
/- Claim C1.                                                              -/
/- ---------------------------------------------------------------------- -/

/-- Base URL of the C1 failing input. -/
def c1_url : String := "https://mcpedl.org/getfile/5916"

/-- The pattern-matched artifact link of the C1 failing input. -/
def c1_pattern_link : String := "https://mcpedl.org/uploads_files/x/game.apk"

/-- The anchor-only link of the C1 failing input. -/
def c1_anchor_link : String := "https://example.com/other.apk"

/-- Markup holding both one pattern-matched artifact URL and one anchor-only
link ending in the artifact extension. -/
def c1_page : Html :=
  ⟨"<html><a href=\"https://example.com/other.apk\">mirror</a> https://mcpedl.org/uploads_files/x/game.apk</html>",
   [c1_anchor_link],
   "mirror https://mcpedl.org/uploads_files/x/game.apk"⟩

/-- Network oracle of the C1 failing input. -/
def c1_net : Nat → FetchResult := fun _ => .success ⟨200, c1_page⟩

/-- C1, evaluated at the failing input: the markup has exactly one pattern
match and the anchor-only link is not among the pattern matches, yet under
an admissible hash-seed order of `list(set(links))` the extractor returns
the anchor-only link.  The comment of line 128 documents the intent to give
the pattern matches priority ("first as it is most reliable"), but the
`list(set(links))` of line 142 discards the priority order the function
built, so the returned link is not guaranteed to be pattern-matched. -/
theorem pattern_priority_lost_eval :
    re_findall_apk c1_page.raw = [c1_pattern_link] ∧
    c1_anchor_link ∉ re_findall_apk c1_page.raw ∧
    (get_download_link_requests rev_order c1_net c1_url).result = some c1_anchor_link := by
  decide

/- ---------------------------------------------------------------------- -/
/- Claim C2.                                                              -/
/- ---------------------------------------------------------------------- -/

/-- Appending a stdout line puts its text last among the stdout texts. -/
theorem stdout_texts_last (out : List OutLine) (link : String) :
    (stdout_texts (out ++ [⟨.stdout, link⟩])).getLast? = some link := by
  simp [stdout_texts, List.filter_append, List.getLast?_append_cons]

/-- Command line of the C2 run. -/
def c2_argv : List String := ["mcpe_downloader.py", "https://mcpedl.org/getfile/5916"]

/-- The artifact link discovered in the C2 run. -/
def c2_link : String := "https://mcpedl.org/uploads_files/x/game.apk"

/-- Body served in the C2 run: the artifact link is present immediately. -/
def c2_page : Html :=
  ⟨"<a href=\"https://mcpedl.org/uploads_files/x/game.apk\">dl</a>", [c2_link], "dl"⟩

/-- Network oracle of the C2 run. -/
def c2_net : Nat → FetchResult := fun _ => .success ⟨200, c2_page⟩

/-- A Selenium environment for runs that never touch the browser path. -/
def dummy_env : SeleniumEnv := ⟨.importError, ⟨"", [], ""⟩⟩

/-- C2 as stated is false: a successful run (exit code 0) writes the
analysis banner, the method banner and the found banner to standard output
before the link, because `get_download_link` and
`_get_download_link_requests` print their progress with plain `print`.  The
standard output of this successful run has four lines, not one. -/
theorem stdout_not_sole_payload :
    (main_run id_order c2_net dummy_env .completed c2_argv).exitCode = 0 ∧
    stdout_texts (main_run id_order c2_net dummy_env .completed c2_argv).output ≠ [c2_link] ∧
    (stdout_texts (main_run id_order c2_net dummy_env .completed c2_argv).output).length = 4 := by
  decide

/-- C2 amended: on every completed run that finds a link, the process exits
with code 0 and the discovered URL is the final line on standard output with
no decoration; the progress/diagnostic text of the extractor, however, is
also written to standard output, not to a separate stream. -/
theorem url_last_stdout_line (σ : PySetOrder) (net : Nat → FetchResult) (env : SeleniumEnv)
    (argv : List String) (link : String)
    (h2 : 2 ≤ argv.length)
    (hurl : py_startswith (argv.getD 1 "") http_str = true)
    (hres : (get_download_link σ net env (selenium_flag argv) (argv.getD 1 "")).result =
      some link)
    (hne : link ≠ "") :
    (main_run σ net env .completed argv).exitCode = 0 ∧
    (stdout_texts (main_run σ net env .completed argv).output).getLast? = some link := by
  rw [main_run, if_neg (by omega), if_pos hurl]
  simp only [main_body]
  rw [hres]
  simp only [if_neg (by simp [hne] : ¬((link == "") = true))]
  exact ⟨trivial, stdout_texts_last _ link⟩

/-- Witness for the amended C2 at the concrete C2 run. -/
theorem url_last_stdout_line_witness :
    (main_run id_order c2_net dummy_env .completed c2_argv).exitCode = 0 ∧
    (stdout_texts (main_run id_order c2_net dummy_env .completed c2_argv).output).getLast? =
      some c2_link :=
  url_last_stdout_line id_order c2_net dummy_env c2_argv c2_link (by decide) (by decide)
    (by decide) (by decide)

/- ---------------------------------------------------------------------- -/
/- Claim C3.                                                              -/
/- ---------------------------------------------------------------------- -/

/-- URL of the C3 countdown page. -/
def c3_url : String := "https://mcpedl.org/getfile/5916"

/-- Rendered page of the C3 run: countdown text, no candidate link. -/
def c3_page : Html :=
  ⟨"<p>Please wait 10 seconds...</p>", [], "Please wait 10 seconds..."⟩

/-- Browser environment of the C3 run: a working driver. -/
def c3_env : SeleniumEnv := ⟨.ok, c3_page⟩

/-- Network oracle of the C3 run (never consulted on the working-driver
path). -/
def c3_net : Nat → FetchResult := fun _ => .success ⟨200, c3_page⟩

/-- C3 as stated is false: on the browser path, a page whose first Candidate
Scan is empty and whose visible text contains a countdown keyword is NOT
re-fetched.  The run performs exactly one navigation and one 15-unit sleep —
the sleep comes unconditionally before the single scan — and no second
retrieval of any kind occurs. -/
theorem browser_no_refetch_counterexample :
    collect_links c3_page c3_url = [] ∧
    has_countdown_keyword c3_page.text = true ∧
    (get_download_link_selenium id_order c3_net c3_env c3_url).events =
      [.navigate c3_url, .sleep 15] ∧
    NetEvent.fetch c3_url ∉ (get_download_link_selenium id_order c3_net c3_env c3_url).events := by
  decide

/-- C3 amended: on the browser path with a working driver, the extractor
navigates once, unconditionally sleeps a fixed 15 time-units before its
single Candidate Scan of the rendered markup, and returns the head of that
scan; it never re-fetches and never scans a second body, regardless of
countdown keywords. -/
theorem browser_single_scan (σ : PySetOrder) (net : Nat → FetchResult)
    (env : SeleniumEnv) (url : String) (h : env.setup = .ok) :
    (get_download_link_selenium σ net env url).events = [.navigate url, .sleep 15] ∧
    (get_download_link_selenium σ net env url).result =
      (extract_direct_links_from_html σ env.pageSource url).head? := by
  rw [get_download_link_selenium, h]
  cases hc : extract_direct_links_from_html σ env.pageSource url with
  | nil => simp [hc]
  | cons a l => simp [hc]

/-- Witness for the amended C3 at the concrete countdown page. -/
theorem browser_single_scan_witness :
    (get_download_link_selenium id_order c3_net c3_env c3_url).events =
      [.navigate c3_url, .sleep 15] ∧
    (get_download_link_selenium id_order c3_net c3_env c3_url).result = none := by
  have h := browser_single_scan id_order c3_net c3_env c3_url rfl
  refine ⟨h.1, ?_⟩
  rw [h.2]
  decide

/- ---------------------------------------------------------------------- -/
/- Claim C7.                                                              -/
/- ---------------------------------------------------------------------- -/

/-- C7: when the browser path is requested but no driver can be acquired
(Selenium import failure or WebDriver initialisation failure), the run
disables the browser path and transparently performs the plain-fetch
extraction on the same URL: same result, same network events, plus the
fallback diagnostic in its output. -/
theorem selenium_fallback (σ : PySetOrder) (net : Nat → FetchResult)
    (env : SeleniumEnv) (url : String) (h : env.setup ≠ .ok) :
    (get_download_link_selenium σ net env url).result =
      (get_download_link_requests σ net url).result ∧
    (get_download_link_selenium σ net env url).events =
      (get_download_link_requests σ net url).events ∧
    fallback_line ∈ (get_download_link_selenium σ net env url).output := by
  rw [get_download_link_selenium]
  cases henv : env.setup with
  | ok => exact absurd henv h
  | importError => exact ⟨rfl, rfl, by simp⟩
  | initError msg => exact ⟨rfl, rfl, by simp⟩

/-- Page served on the fallback plain-fetch path of the C7 witness. -/
def c7_page : Html := ⟨"<p>nothing here</p>", [], "nothing here"⟩

/-- Network oracle of the C7 witness. -/
def c7_net : Nat → FetchResult := fun _ => .success ⟨200, c7_page⟩

/-- Browser environment of the C7 witness: the Selenium import fails. -/
def c7_env : SeleniumEnv := ⟨.importError, ⟨"", [], ""⟩⟩

/-- URL of the C7 witness. -/
def c7_url : String := "https://mcpedl.org/getfile/5916"

/-- Witness for C7: with the Selenium library missing, the browser-path run
equals the plain-fetch run and emits the fallback diagnostic. -/
theorem selenium_fallback_witness :
    (get_download_link_selenium id_order c7_net c7_env c7_url).result =
      (get_download_link_requests id_order c7_net c7_url).result ∧
    fallback_line ∈ (get_download_link_selenium id_order c7_net c7_env c7_url).output := by
  have h := selenium_fallback id_order c7_net c7_env c7_url (by decide)
  exact ⟨h.1, h.2.2⟩

/- ---------------------------------------------------------------------- -/
/- Claim C8.                                                              -/
/- ---------------------------------------------------------------------- -/

/-- C8: on every exit path of `main` that runs after the extractor is
constructed — completion (link found or not), keyboard interruption, or an
unexpected exception — the `finally` block invokes `close_driver` before the
process exits.  The extractor is constructed exactly when both argument
checks pass. -/
theorem cleanup_every_exit (σ : PySetOrder) (net : Nat → FetchResult) (env : SeleniumEnv)
    (outcome : BodyOutcome) (argv : List String)
    (h2 : 2 ≤ argv.length)
    (hurl : py_startswith (argv.getD 1 "") http_str = true) :
    (main_run σ net env outcome argv).cleanupRan = true := by
  rw [main_run, if_neg (by omega), if_pos hurl]
  cases outcome with
  | completed =>
      simp only [main_body]
      cases hres : (get_download_link σ net env (selenium_flag argv) (argv.getD 1 "")).result with
      | none => simp [hres]
      | some link => by_cases hl : link = "" <;> simp [hres, hl]
  | keyboardInterrupt po pe => rfl
  | raised msg po pe => rfl

/-- Network oracle of the C8 witness. -/
def c8_net : Nat → FetchResult := fun _ => .netError "connection refused"

/-- Command line of the C8 witness. -/
def c8_argv : List String := ["mcpe_downloader.py", "https://mcpedl.org/getfile/5916"]

/-- Witness for C8 at a keyboard-interrupted run. -/
theorem cleanup_every_exit_witness :
    (main_run id_order c8_net dummy_env (.keyboardInterrupt [] []) c8_argv).cleanupRan = true :=
  cleanup_every_exit id_order c8_net dummy_env (.keyboardInterrupt [] []) c8_argv
    (by decide) (by decide)

/- ---------------------------------------------------------------------- -/
/- Claim C9.                                                              -/
/- ---------------------------------------------------------------------- -/

/-- C9: with a missing URL argument, or with a URL argument that does not
start with "http", `main` prints the usage message or the scheme error
message, exits with code 1, and performs no network activity (both exits
happen before the extractor is constructed, so no fetch or navigation event
occurs). -/
theorem usage_error_no_network (σ : PySetOrder) (net : Nat → FetchResult) (env : SeleniumEnv)
    (outcome : BodyOutcome) (argv : List String)
    (h : argv.length < 2 ∨ py_startswith (argv.getD 1 "") http_str = false) :
    (main_run σ net env outcome argv).exitCode = 1 ∧
    (main_run σ net env outcome argv).events = [] ∧
    ((main_run σ net env outcome argv).output = usage_lines ∨
     (main_run σ net env outcome argv).output = [scheme_error_line]) := by
  rw [main_run]
  by_cases h2 : argv.length < 2
  · rw [if_pos h2]
    exact ⟨rfl, rfl, Or.inl rfl⟩
  · rcases h with h | hurl
    · exact absurd h h2
    · rw [if_neg h2, if_neg (by simp only [hurl]; decide)]
      exact ⟨rfl, rfl, Or.inr rfl⟩

/-- Command line of the C9 witness: no URL argument at all. -/
def c9_argv : List String := ["mcpe_downloader.py"]

/-- Network oracle of the C9 witness. -/
def c9_net : Nat → FetchResult := fun _ => .netError "unreachable"

/-- Witness for C9 at an invocation with a missing URL. -/
theorem usage_error_no_network_witness :
    (main_run id_order c9_net dummy_env .completed c9_argv).exitCode = 1 ∧
    (main_run id_order c9_net dummy_env .completed c9_argv).events = [] ∧
    ((main_run id_order c9_net dummy_env .completed c9_argv).output = usage_lines ∨
     (main_run id_order c9_net dummy_env .completed c9_argv).output = [scheme_error_line]) :=
  usage_error_no_network id_order c9_net dummy_env .completed c9_argv (Or.inl (by decide))
